import Mathlib

/-!
Verification of the trade-trader trading control plane against its
natural-language specification.

The Python sources are shallowly embedded: Decimal/float arithmetic becomes
exact rational arithmetic (`ℚ`), integer volumes become `ℤ`, dictionaries
become functions or association lists, wall-clock instants become rationals
(seconds), and the asynchronous execution loops become pure state traces
parameterized by the external collaborators (placement success, price feeds,
database aggregates).
-/

/-- Python `int(x)` on a float/rational: truncation toward zero. -/
def pyTrunc (q : ℚ) : ℤ := if 0 ≤ q then ⌊q⌋ else -⌊-q⌋

/-- Python 3 `round(x)`: round half to even (banker's rounding). -/
def pyRound (q : ℚ) : ℤ :=
  let f := ⌊q⌋
  let r := q - (f : ℚ)
  if r < 1/2 then f
  else if 1/2 < r then f + 1
  else if f % 2 = 0 then f else f + 1

/-! ## Algorithm engine (`trade_trader/trade/algorithm.py`)

`AlgoEngine.execute_twap` computes the slicing plan from the order's total
volume and time window, then loops over the slices, placing
`min(volume_per_slice, remaining)` each time and accumulating
`filled_volume` only on successful placement.  `execute_vwap` allocates each
time bucket `max(1, int(total_volume * (ratio - cumulative_ratio)))` and
accumulates without consulting the remaining volume.  `execute_snapshot`
places the whole volume at once.  The loops are embedded as traces of the
`filled_volume` field, parameterized by the per-slice placement outcomes
(the pluggable `order_func`). -/

/-- Slicing plan of `AlgoEngine.execute_twap` (algorithm.py lines 119-127):
`num_slices = max(1, int(total_duration / 60))`,
`volume_per_slice = max(1, round(total_volume / num_slices))`,
then `num_slices = int(total_volume / volume_per_slice)`.
Returns `(num_slices, volume_per_slice)` after the recomputation. -/
def twap_plan (total_volume : ℤ) (total_duration : ℚ) : ℤ × ℤ :=
  let num_slices : ℤ := max 1 (pyTrunc (total_duration / 60))
  let volume_per_slice : ℤ := max 1 (pyRound ((total_volume : ℚ) / (num_slices : ℚ)))
  let num_slices2 : ℤ := pyTrunc ((total_volume : ℚ) / (volume_per_slice : ℚ))
  (num_slices2, volume_per_slice)

/-- The successive values of `order.filled_volume` produced by the TWAP
execution loop (algorithm.py lines 132-177).  One list entry per loop
iteration that reaches the placement; `oks` gives each placement's outcome
(`order_func` result); the loop breaks when `remaining <= 0`.  Early exits
(status change, window elapsing) only truncate the trace. -/
def twap_fill_trace (total_volume volume_per_slice : ℤ) :
    List Bool → ℤ → List ℤ
  | [], _ => []
  | ok :: rest, filled =>
    let remaining := total_volume - filled
    if remaining ≤ 0 then []
    else
      let slice_volume := min volume_per_slice remaining
      let filled2 := if ok then filled + slice_volume else filled
      filled2 :: twap_fill_trace total_volume volume_per_slice rest filled2

/-- Per-slice volumes placed by the TWAP loop when every placement succeeds
and the time window never elapses: slice `i` places
`min(volume_per_slice, total_volume - filled)`. -/
def twap_slice_volumes (total_volume volume_per_slice : ℤ) :
    ℕ → ℤ → List ℤ
  | 0, _ => []
  | n + 1, filled =>
    let remaining := total_volume - filled
    if remaining ≤ 0 then []
    else
      let slice_volume := min volume_per_slice remaining
      slice_volume :: twap_slice_volumes total_volume volume_per_slice n (filled + slice_volume)

/-- Final status assignment of `execute_twap` (algorithm.py lines 180-183):
`"completed"` iff `filled_volume >= total_volume`, else `"partial"`. -/
def twap_final_status (total_volume filled_volume : ℤ) : String :=
  if total_volume ≤ filled_volume then "completed" else "partial"

/-- The successive values of `order.filled_volume` produced by the VWAP
execution loop (algorithm.py lines 210-243).  `profile_total` is the sum of
the volume profile; `buckets` the bucket volumes in iteration order; `oks`
the placement outcomes.  Each bucket's slice is
`max(1, int(total_volume * (ratio - cumulative_ratio)))`; on success both
`filled_volume` and `cumulative_ratio` advance.  There is no check against
the remaining volume. -/
def vwap_fill_trace (total_volume : ℤ) (profile_total : ℚ) :
    List ℚ → List Bool → ℤ → ℚ → List ℤ
  | bucket :: buckets, ok :: oks, filled, cumulative =>
    let ratio := bucket / profile_total
    let slice_volume : ℤ := max 1 (pyTrunc ((total_volume : ℚ) * (ratio - cumulative)))
    let filled2 := if ok then filled + slice_volume else filled
    let cumulative2 := if ok then cumulative + ratio else cumulative
    filled2 :: vwap_fill_trace total_volume profile_total buckets oks filled2 cumulative2
  | _, _, _, _ => []

/-- `filled_volume` after `execute_snapshot` (algorithm.py lines 263-298):
every branch sets `volume = total_volume`, and `filled_volume` is set to it
exactly when the single placement succeeds. -/
def snapshot_filled (total_volume : ℤ) (ok : Bool) : ℤ :=
  if ok then total_volume else 0

/-! ## Risk engine (`trade_trader/risk/__init__.py`)

`RiskEngine.check_order_before_submit` runs an ordered pipeline of checks,
returning the first failing `RiskCheckResult` (its `__bool__` is `passed`).
The only mutable state is `_order_count`, the per-instrument list of
timestamps of accepted orders, touched exclusively by `_check_rate_limit`.
Database lookups (account, aggregated position) are parameters of the
embedding; `Decimal`/float quantities are rationals; the two
`timezone.localtime()` reads within one call are one instant `now`. -/

/-- Direction of an order (`panel.models.DirectionType`). -/
inductive DirectionType | LONG | SHORT
deriving DecidableEq, Repr

/-- Open/close flag of an order (`panel.models.OffsetFlag`). -/
inductive OffsetFlag | Open | Close
deriving DecidableEq, Repr

/-- `RiskCheckResult(passed, message="", code="")`. -/
structure RiskCheckResult where
  passed : Bool
  message : String := ""
  code : String := ""
deriving DecidableEq, Repr

def ERR_POSITION_LIMIT : String := "RISK_001"
def ERR_MARGIN_INSUFFICIENT : String := "RISK_002"
def ERR_PRICE_LIMIT : String := "RISK_003"
def ERR_INSTRUMENT_STATUS : String := "RISK_004"
def ERR_ORDER_SIZE : String := "RISK_005"
def ERR_RATE_LIMIT : String := "RISK_006"
def ERR_TRADING_TIME : String := "RISK_007"

/-- The fields of `panel.models.Instrument` read by the risk engine.
`up_limit`/`down_limit` are `none` when `get_up_limit`/`get_down_limit`
are unavailable; `max_market_order_volume` and `max_position` are `none`
when the attribute is absent (the `hasattr` guards). -/
structure Instrument where
  code : String
  is_trading : Bool := true
  night_trade : Bool := false
  up_limit : Option ℚ := none
  down_limit : Option ℚ := none
  max_market_order_volume : Option ℤ := none
  max_position : Option ℤ := none
  margin_per_hand : ℚ := 0
deriving DecidableEq, Repr

/-- The fields of `panel.models.Account` read by the risk engine. -/
structure Account where
  available : ℚ
  balance : ℚ
deriving DecidableEq, Repr

/-- One `timezone.localtime()` instant: Python weekday (0 = Monday),
hour of day, and the same instant as seconds on a timeline (used by the
rate-limit window arithmetic). -/
structure LocalNow where
  weekday : ℕ
  hour : ℕ
  t : ℚ
deriving DecidableEq, Repr

/-- The configured risk parameters (constructor of `RiskEngine`), at their
config fallbacks by default. -/
structure RiskConfig where
  max_position_ratio : ℚ := 95/100
  max_single_order_ratio : ℚ := 1/10
  max_order_per_minute : ℕ := 30
  price_limit_buffer : ℚ := 1/1000
deriving DecidableEq, Repr

/-- The engine's `_order_count` dictionary: per-instrument timestamps of
accepted orders.  Deleting an emptied key is indistinguishable from mapping
it to `[]`, so the dictionary is a total function. -/
structure RiskState where
  order_count : String → List ℚ

/-- `RiskEngine._check_instrument_status`. -/
def check_instrument_status (instrument : Option Instrument) : RiskCheckResult :=
  match instrument with
  | none => { passed := false, message := "合约不存在", code := ERR_INSTRUMENT_STATUS }
  | some i =>
    if !i.is_trading then
      { passed := false, message := "合约 " ++ i.code ++ " 不可交易",
        code := ERR_INSTRUMENT_STATUS }
    else { passed := true }

/-- `RiskEngine._check_trading_time`: weekends are rejected; for non-night
instruments only hours 8-14 pass. -/
def check_trading_time (now : LocalNow) (i : Instrument) : RiskCheckResult :=
  if 5 ≤ now.weekday then
    { passed := false, message := "周末非交易时间", code := ERR_TRADING_TIME }
  else if i.night_trade then { passed := true }
  else if now.hour < 8 ∨ 15 ≤ now.hour then
    { passed := false, message := "非交易时间段", code := ERR_TRADING_TIME }
  else { passed := true }

/-- `RiskEngine._check_price_limit`: with both limits available, a LONG
(buy) order is rejected when `price >= up_limit - price * buffer_ratio`, a
SHORT (sell) order when `price <= down_limit + price * buffer_ratio`;
without limits the check is skipped. -/
def check_price_limit (buffer_ratio : ℚ) (i : Instrument)
    (direction : DirectionType) (price : ℚ) : RiskCheckResult :=
  match i.up_limit, i.down_limit with
  | some up_limit, some down_limit =>
    let buffer := price * buffer_ratio
    match direction with
    | .LONG =>
      if up_limit - buffer ≤ price then
        { passed := false,
          message := "买入价格 " ++ toString price ++ " 接近或超过涨停板 " ++ toString up_limit,
          code := ERR_PRICE_LIMIT }
      else { passed := true }
    | .SHORT =>
      if price ≤ down_limit + buffer then
        { passed := false,
          message := "卖出价格 " ++ toString price ++ " 接近或低于跌停板 " ++ toString down_limit,
          code := ERR_PRICE_LIMIT }
      else { passed := true }
  | _, _ => { passed := true }

/-- `RiskEngine._check_order_size`: volume must be positive and at most the
instrument's `max_market_order_volume` (500 when the attribute is absent). -/
def check_order_size (i : Instrument) (volume : ℤ) : RiskCheckResult :=
  if volume ≤ 0 then
    { passed := false, message := "订单数量必须大于0，当前: " ++ toString volume,
      code := ERR_ORDER_SIZE }
  else
    let max_volume := i.max_market_order_volume.getD 500
    if max_volume < volume then
      { passed := false,
        message := "订单数量 " ++ toString volume ++ " 超过合约最大限制 " ++ toString max_volume,
        code := ERR_ORDER_SIZE }
    else { passed := true }

/-- `RiskEngine._check_position_limit`.  `current_position` is the database
aggregate of the account's same-direction position in this instrument. -/
def check_position_limit (current_position : ℤ) (account : Account)
    (i : Instrument) (volume : ℤ) : RiskCheckResult :=
  let new_position := current_position + volume
  let over_max := match i.max_position with
    | some max_pos => decide (max_pos < new_position)
    | none => false
  if over_max then
    { passed := false,
      message := "持仓 " ++ toString new_position ++ " 将超过合约最大持仓限额",
      code := ERR_POSITION_LIMIT }
  else
    let available_margin := account.available - (volume : ℚ) * i.margin_per_hand
    if available_margin < 0 then
      { passed := false, message := "可用资金不足开仓 " ++ toString volume ++ " 手",
        code := ERR_MARGIN_INSUFFICIENT }
    else { passed := true }

/-- `RiskEngine._check_margin_sufficient`. -/
def check_margin_sufficient (cfg : RiskConfig) (account : Account)
    (i : Instrument) (volume : ℤ) : RiskCheckResult :=
  let required_margin := (volume : ℚ) * i.margin_per_hand
  if account.available < required_margin then
    { passed := false,
      message := "保证金不足: 需要 " ++ toString required_margin ++ ", 可用 "
        ++ toString account.available,
      code := ERR_MARGIN_INSUFFICIENT }
  else if 0 < account.balance ∧
      cfg.max_position_ratio < (account.balance - account.available) / account.balance then
    { passed := false, message := "资金使用率超过限制", code := ERR_MARGIN_INSUFFICIENT }
  else { passed := true }

/-- `RiskEngine._cleanup_old_orders`: drop every timestamp not strictly
newer than `now` minus 60 seconds, for every instrument. -/
def cleanup_old_orders (now : ℚ) (order_count : String → List ℚ) : String → List ℚ :=
  fun code => (order_count code).filter (fun t => now - 60 < t)

/-- `RiskEngine._check_rate_limit`: prune the window, reject when the
instrument already has `max_order_per_minute` recorded orders, otherwise
record this order's timestamp. -/
def check_rate_limit (max_order_per_minute : ℕ) (now : ℚ) (s : RiskState)
    (instrument_code : String) : RiskCheckResult × RiskState :=
  let oc := cleanup_old_orders now s.order_count
  let recent_count := (oc instrument_code).length
  if max_order_per_minute ≤ recent_count then
    ({ passed := false,
       message := "下单频率过高: 最近一分钟内已下单 " ++ toString recent_count ++ " 次",
       code := ERR_RATE_LIMIT },
     { order_count := oc })
  else
    ({ passed := true },
     { order_count := fun c => if c = instrument_code then oc c ++ [now] else oc c })

/-- The `account if account is not None else Account.objects.filter(broker=...).first()`
resolution at the top of `check_order_before_submit`. -/
def accountResolve (account broker_account : Option Account) : Option Account :=
  match account with
  | some a => some a
  | none => broker_account

/-- Shared tail of `check_order_before_submit`: step 7 (rate limit) and the
success result. -/
def rate_limit_and_finish (cfg : RiskConfig) (now : LocalNow) (s : RiskState)
    (instrument_code : String) : RiskCheckResult × RiskState :=
  let r := check_rate_limit cfg.max_order_per_minute now.t s instrument_code
  if r.1.passed = false then r
  else ({ passed := true, message := "风控检查通过" }, r.2)

/-- `RiskEngine.check_order_before_submit`: account resolution followed by
the ordered pipeline — instrument status, trading time, price limit, order
size, (for opens) position limit and margin, then rate limit — returning at
the first failure. -/
def check_order_before_submit (cfg : RiskConfig) (now : LocalNow)
    (broker_account : Option Account) (current_position : ℤ) (s : RiskState)
    (instrument : Option Instrument) (direction : DirectionType)
    (offset : OffsetFlag) (price : ℚ) (volume : ℤ)
    (account : Option Account) : RiskCheckResult × RiskState :=
  match accountResolve account broker_account with
  | none =>
    ({ passed := false, message := "未找到账户信息", code := ERR_MARGIN_INSUFFICIENT }, s)
  | some acct =>
    let r1 := check_instrument_status instrument
    if r1.passed = false then (r1, s)
    else
      match instrument with
      | none => (r1, s)
      | some i =>
        let r2 := check_trading_time now i
        if r2.passed = false then (r2, s)
        else
          let r3 := check_price_limit cfg.price_limit_buffer i direction price
          if r3.passed = false then (r3, s)
          else
            let r4 := check_order_size i volume
            if r4.passed = false then (r4, s)
            else
              if offset = OffsetFlag.Open then
                let r5 := check_position_limit current_position acct i volume
                if r5.passed = false then (r5, s)
                else
                  let r6 := check_margin_sufficient cfg acct i volume
                  if r6.passed = false then (r6, s)
                  else rate_limit_and_finish cfg now s i.code
              else rate_limit_and_finish cfg now s i.code

/-! ## Stop engine (`trade_trader/risk/stop_engine.py`)

`StopEngine` keeps a `position_id -> StopOrder` dictionary (insertion
ordered, modelled as an association list).  `_check_stop_condition` both
decides triggering and mutates the trailing watermarks; the position row is
re-fetched from the database on every check, so it is a parameter of the
check.  `register_trailing_stop` always stores a `Decimal` distance, so the
`isinstance(trailing_distance, Decimal)` branch of `_check_stop_condition`
(absolute distance) applies to orders it registers. -/

/-- `StopType` enumeration. -/
inductive StopType | FIXED_PRICE | PERCENTAGE | ATR | TRAILING | TIME
deriving DecidableEq, Repr

/-- The fields of `panel.models.Position` read by the stop engine. -/
structure Position where
  id : ℤ
  code : String
  direction : DirectionType
  avg_open_price : ℚ
  position : ℤ
deriving DecidableEq, Repr

/-- `StopOrder` (stop_engine.py lines 39-65), without the timestamps. -/
structure StopOrder where
  position_id : ℤ
  stop_type : StopType
  stop_price : Option ℚ := none
  stop_percentage : Option ℚ := none
  atr_multiple : Option ℚ := none
  trailing_distance : Option ℚ := none
  direction : Option DirectionType := none
  triggered : Bool := false
  highest_price : Option ℚ := none
  lowest_price : Option ℚ := none
deriving DecidableEq, Repr

/-- A record of `check_and_trigger`'s `trigger_info` dictionaries. -/
structure TriggerInfo where
  position_id : ℤ
  code : String
  direction : DirectionType
  current_price : ℚ
  stop_price : Option ℚ
  stop_type : StopType
deriving DecidableEq, Repr

/-- `self.stop_orders[position_id] = stop_order` on an insertion-ordered
dictionary: replace in place, or append when absent. -/
def dictInsert (k : ℤ) (v : StopOrder) : List (ℤ × StopOrder) → List (ℤ × StopOrder)
  | [] => [(k, v)]
  | (k0, v0) :: rest =>
    if k0 = k then (k0, v) :: rest else (k0, v0) :: dictInsert k v rest

/-- Config fallback `default_stop_loss_pct = 0.02`, read through
`Decimal(str(...))`. -/
def default_stop_loss_pct : ℚ := 2/100

/-- `StopEngine.register_stop_loss`: fetch the position, default the
percentage, build the `StopOrder`, seed the trailing watermark for trailing
stops, and store it.  Returns the Python result and the new dictionary. -/
def register_stop_loss (positions : ℤ → Option Position)
    (stop_orders : List (ℤ × StopOrder)) (position_id : ℤ)
    (stop_type : StopType := StopType.PERCENTAGE)
    (stop_price : Option ℚ := none) (stop_percentage : Option ℚ := none)
    (atr_multiple : Option ℚ := none) (trailing_distance : Option ℚ := none) :
    Bool × List (ℤ × StopOrder) :=
  match positions position_id with
  | none => (false, stop_orders)
  | some position =>
    let pct := stop_percentage.getD default_stop_loss_pct
    let base : StopOrder :=
      { position_id := position_id, stop_type := stop_type,
        stop_price := stop_price, stop_percentage := some pct,
        atr_multiple := atr_multiple, trailing_distance := trailing_distance,
        direction := some position.direction }
    let stop_order :=
      if stop_type = StopType.TRAILING then
        if position.direction = DirectionType.LONG then
          { base with highest_price := some position.avg_open_price }
        else
          { base with lowest_price := some position.avg_open_price }
      else base
    (true, dictInsert position_id stop_order stop_orders)

/-- `StopEngine.register_trailing_stop`: the stored distance is `distance`
when truthy (a non-zero `Decimal`), else `distance_pct`; both arrive as
`Decimal`s, so `_check_stop_condition` later takes its absolute-distance
branch for this order. -/
def register_trailing_stop (positions : ℤ → Option Position)
    (stop_orders : List (ℤ × StopOrder)) (position_id : ℤ)
    (distance : Option ℚ := none) (distance_pct : Option ℚ := none) :
    Bool × List (ℤ × StopOrder) :=
  match positions position_id with
  | none => (false, stop_orders)
  | some position =>
    let chosen : Option ℚ :=
      match distance with
      | some d => if d = 0 then distance_pct else some d
      | none => distance_pct
    let base : StopOrder :=
      { position_id := position_id, stop_type := StopType.TRAILING,
        trailing_distance := chosen, direction := some position.direction }
    let stop_order :=
      if position.direction = DirectionType.LONG then
        { base with highest_price := some position.avg_open_price }
      else
        { base with lowest_price := some position.avg_open_price }
    (true, dictInsert position_id stop_order stop_orders)

/-- `StopEngine._check_stop_condition`: returns
`((should_trigger, stop_price), updated order)`; only the trailing branch
updates the order (its watermark).  The `ATR` and `TIME` branches fall
through to `(False, None)`.  Thresholds with missing parameters
(`stop_price`/`stop_percentage` of `None`, which registration never
produces) also yield `(False, None)`. -/
def check_stop_condition (position : Position) (stop_order : StopOrder)
    (current_price : ℚ) : (Bool × Option ℚ) × StopOrder :=
  match stop_order.stop_type with
  | StopType.FIXED_PRICE =>
    match stop_order.stop_price with
    | some stop_price =>
      if position.direction = DirectionType.LONG then
        ((decide (current_price ≤ stop_price), some stop_price), stop_order)
      else
        ((decide (stop_price ≤ current_price), some stop_price), stop_order)
    | none => ((false, none), stop_order)
  | StopType.PERCENTAGE =>
    match stop_order.stop_percentage with
    | some pct =>
      let stop_price :=
        if position.direction = DirectionType.SHORT then
          position.avg_open_price * (1 + pct)
        else
          position.avg_open_price * (1 - pct)
      if position.direction = DirectionType.LONG then
        ((decide (current_price ≤ stop_price), some stop_price), stop_order)
      else
        ((decide (stop_price ≤ current_price), some stop_price), stop_order)
    | none => ((false, none), stop_order)
  | StopType.TRAILING =>
    match stop_order.trailing_distance with
    | some distance =>
      if position.direction = DirectionType.LONG then
        let highest :=
          match stop_order.highest_price with
          | none => current_price
          | some h => if h < current_price then current_price else h
        let so := { stop_order with highest_price := some highest }
        let stop_price := highest - distance
        ((decide (current_price ≤ stop_price), some stop_price), so)
      else
        let lowest :=
          match stop_order.lowest_price with
          | none => current_price
          | some l => if current_price < l then current_price else l
        let so := { stop_order with lowest_price := some lowest }
        let stop_price := lowest + distance
        ((decide (stop_price ≤ current_price), some stop_price), so)
    | none => ((false, none), stop_order)
  | _ => ((false, none), stop_order)

/-- `StopEngine.check_and_trigger`: walk the dictionary; skip orders already
triggered; drop orders whose position closed externally
(`cancel_stop_order`); skip orders without a price; otherwise run
`_check_stop_condition`, and on a trigger mark the order and emit a
`trigger_info`.  Returns `(triggered_stops, new stop_orders)`. -/
def check_and_trigger (positions : ℤ → Option Position)
    (current_prices : String → Option ℚ) :
    List (ℤ × StopOrder) → List TriggerInfo × List (ℤ × StopOrder)
  | [] => ([], [])
  | (position_id, stop_order) :: rest =>
    if stop_order.triggered then
      let r := check_and_trigger positions current_prices rest
      (r.1, (position_id, stop_order) :: r.2)
    else
      match positions position_id with
      | none => check_and_trigger positions current_prices rest
      | some position =>
        if position.position = 0 then
          check_and_trigger positions current_prices rest
        else
          match current_prices position.code with
          | none =>
            let r := check_and_trigger positions current_prices rest
            (r.1, (position_id, stop_order) :: r.2)
          | some current_price =>
            let c := check_stop_condition position stop_order current_price
            let r := check_and_trigger positions current_prices rest
            if c.1.1 then
              let so := { c.2 with triggered := true }
              ({ position_id := position_id, code := position.code,
                 direction := position.direction,
                 current_price := current_price, stop_price := c.1.2,
                 stop_type := stop_order.stop_type } :: r.1,
               (position_id, so) :: r.2)
            else (r.1, (position_id, c.2) :: r.2)

/-- The trailing-stop state walk for a long position with an absolute
distance: feed a price sequence through `_check_stop_condition`, carrying
the watermark, and record each check's trigger decision. -/
def trail_steps_long (distance : ℚ) : ℚ → List ℚ → List (Bool × ℚ)
  | _, [] => []
  | highest, p :: ps =>
    let c := check_stop_condition
      { id := 0, code := "", direction := DirectionType.LONG,
        avg_open_price := 0, position := 1 }
      { position_id := 0, stop_type := StopType.TRAILING,
        trailing_distance := some distance, direction := some DirectionType.LONG,
        highest_price := some highest }
      p
    (c.1.1, (c.2.highest_price).getD highest) ::
      trail_steps_long distance ((c.2.highest_price).getD highest) ps

/-! ## Conditional order engine (`trade_trader/trade/conditional_order.py`)

`ConditionalOrderEngine` evaluates boolean condition atoms against a live
price cache and database aggregates; the database-derived outcomes
(position profit totals, drawdown comparisons) are parameters of the
embedding.  Wall-clock instants are rationals. -/

/-- `ConditionType` enumeration. -/
inductive ConditionType
  | PRICE_GT | PRICE_LT | PRICE_GE | PRICE_LE
  | TIME_GT | TIME_LT
  | POSITION_GT | POSITION_LT
  | PROFIT_GT | PROFIT_LT
  | DRAWDOWN_GT
deriving DecidableEq, Repr

/-- A `Condition` atom: kind, comparison value (price threshold or time
instant, both rationals here), and optional instrument scope. -/
structure Condition where
  ctype : ConditionType
  value : ℚ
  instrument : Option String := none
deriving DecidableEq, Repr

/-- The fields of `ConditionalOrder` the engine's condition checking,
cleanup and the convenience constructors touch. -/
structure ConditionalOrder where
  order_id : String
  instrument_code : String := ""
  direction : Option DirectionType := none
  offset : Option OffsetFlag := none
  price : Option ℚ := none
  volume : ℤ := 1
  conditions : List Condition := []
  condition_logic : String := "AND"
  start_time : Option ℚ := none
  end_time : Option ℚ := none
  is_active : Bool := true
  is_triggered : Bool := false
  is_iceberg : Bool := false
  display_volume : ℤ := 0
  total_volume : ℤ := 0
deriving DecidableEq, Repr

/-- The external world a condition check reads: the engine's price cache,
the current wall clock, and the database-derived aggregates of
`_check_position_profit` / `_check_position_drawdown` (total open-position
profit per instrument-code filter, and the drawdown comparison outcome). -/
structure CondEnv where
  price_cache : String → Option ℚ
  now : ℚ
  position_profit_total : String → ℚ
  drawdown_gt : String → ℚ → Bool

/-- `ConditionalOrderEngine._check_single_condition`.  Price atoms with an
unknown or uncached instrument return `False`; profit atoms compare the
database aggregate; `POSITION_GT`/`POSITION_LT` have no branch in the
source and fall through to `False`. -/
def check_single_condition (env : CondEnv) (condition : Condition) : Bool :=
  match condition.ctype with
  | ConditionType.PRICE_GT =>
    match condition.instrument with
    | none => false
    | some code =>
      match env.price_cache code with
      | none => false
      | some p => decide (condition.value < p)
  | ConditionType.PRICE_LT =>
    match condition.instrument with
    | none => false
    | some code =>
      match env.price_cache code with
      | none => false
      | some p => decide (p < condition.value)
  | ConditionType.PRICE_GE =>
    match condition.instrument with
    | none => false
    | some code =>
      match env.price_cache code with
      | none => false
      | some p => decide (condition.value ≤ p)
  | ConditionType.PRICE_LE =>
    match condition.instrument with
    | none => false
    | some code =>
      match env.price_cache code with
      | none => false
      | some p => decide (p ≤ condition.value)
  | ConditionType.TIME_GT => decide (condition.value < env.now)
  | ConditionType.TIME_LT => decide (env.now < condition.value)
  | ConditionType.PROFIT_GT =>
    match condition.instrument with
    | none => false
    | some code => decide (condition.value < env.position_profit_total code)
  | ConditionType.PROFIT_LT =>
    match condition.instrument with
    | none => false
    | some code => decide (env.position_profit_total code < condition.value)
  | ConditionType.DRAWDOWN_GT =>
    match condition.instrument with
    | none => false
    | some code => env.drawdown_gt code condition.value
  | _ => false

/-- `ConditionalOrderEngine.check_conditions`: an empty condition list never
triggers; outside the validity window nothing triggers; otherwise every
atom is evaluated and combined with `all` for `"AND"` and `any`
otherwise. -/
def check_conditions (env : CondEnv) (order : ConditionalOrder) : Bool :=
  if order.conditions.isEmpty then false
  else if (match order.start_time with
           | some st => decide (env.now < st)
           | none => false) then false
  else if (match order.end_time with
           | some et => decide (et < env.now)
           | none => false) then false
  else
    let results := order.conditions.map (check_single_condition env)
    if order.condition_logic = "AND" then results.all id else results.any id

/-- `ConditionalOrderEngine._cleanup_orders`: delete every order that is
already triggered or whose `end_time` has passed. -/
def cleanup_orders (now : ℚ) (orders : List (String × ConditionalOrder)) :
    List (String × ConditionalOrder) :=
  orders.filter (fun e =>
    !e.2.is_triggered &&
    !(match e.2.end_time with
      | some et => decide (et < now)
      | none => false))

/-- The `iceberg_order` convenience constructor: `conditions` is the empty
list, `offset` is Open, `volume` is the display volume, and the iceberg
fields are set. -/
def iceberg_order (instrument_code : String) (direction : DirectionType)
    (price : ℚ) (total_volume display_volume : ℤ)
    (start_time : Option ℚ := none) (end_time : Option ℚ := none) :
    ConditionalOrder :=
  { order_id := "", instrument_code := instrument_code,
    direction := some direction, offset := some OffsetFlag.Open,
    price := some price, volume := display_volume,
    conditions := [], start_time := start_time, end_time := end_time,
    is_iceberg := true, display_volume := display_volume,
    total_volume := total_volume }

/-! ## Module runtime scheduling (`trade_trader/strategy/__init__.py`)

`BaseModule._register_callback` snapshots one anchor pair:
`self.datetime`/`self.time` (the wall clock, one instant) and
`self.loop_time` (the event loop's monotonic clock).  `_get_next` converts
the cron iterator's next wall-clock fire into a monotonic deadline.  The
cron iterator is embedded as its next-fire function on the wall timeline. -/

/-- `BaseModule._get_next`:
`self.loop_time + (self.crontab_router[key]['iter'].get_next() - self.time)`,
with the iterator anchored at the wall-time anchor, so its first `get_next`
is the cron's next fire after that anchor. -/
def get_next (cron_next : ℚ → ℚ) (time_anchor loop_time_anchor : ℚ) : ℚ :=
  loop_time_anchor + (cron_next time_anchor - time_anchor)

/-- Successive calls to `RiskEngine._check_rate_limit` for one instrument,
one call per element of the timestamp list; collects each call's result and
threads the engine state. -/
def run_rate_calls (max_order_per_minute : ℕ) (instrument_code : String) :
    RiskState → List ℚ → List RiskCheckResult × RiskState
  | s, [] => ([], s)
  | s, t :: ts =>
    let r := check_rate_limit max_order_per_minute t s instrument_code
    let rest := run_rate_calls max_order_per_minute instrument_code r.2 ts
    (r.1 :: rest.1, rest.2)

/-! ## Theorems -/

/-- C9: for every cron job the computed next-fire monotonic time equals
`loop_time_anchor + (cron_iterator.next_after(wall_time_anchor) - wall_time_anchor)`;
equivalently the delay relative to the loop-time anchor equals
`cron.next_after(wall_time) - wall_time`, independent of the absolute epoch
of the loop-time anchor. -/
theorem C9_next_fire :
    ∀ (cron_next : ℚ → ℚ) (time_anchor loop_time_anchor : ℚ),
      get_next cron_next time_anchor loop_time_anchor =
        loop_time_anchor + (cron_next time_anchor - time_anchor) ∧
      get_next cron_next time_anchor loop_time_anchor - loop_time_anchor =
        cron_next time_anchor - time_anchor ∧
      ∀ shift : ℚ,
        get_next cron_next time_anchor (loop_time_anchor + shift) - (loop_time_anchor + shift) =
          get_next cron_next time_anchor loop_time_anchor - loop_time_anchor := by
  intro cron_next t l
  refine ⟨rfl, by simp [get_next], fun shift => by simp [get_next]⟩

/-- C10: `check_conditions` returns `False` for every ConditionalOrder whose
conditions list is empty, regardless of the combination logic, and
`iceberg_order` builds its order with an empty conditions list, so such an
order never triggers through the condition-checking path. -/
theorem C10_empty_conditions :
    (∀ (env : CondEnv) (order : ConditionalOrder),
      order.conditions = [] → check_conditions env order = false) ∧
    (∀ (instrument_code : String) (direction : DirectionType) (price : ℚ)
       (total_volume display_volume : ℤ) (start_time end_time : Option ℚ),
      (iceberg_order instrument_code direction price total_volume display_volume
        start_time end_time).conditions = []) := by
  constructor
  · intro env order h
    simp [check_conditions, h]
  · intro _ _ _ _ _ _ _
    rfl

/-- C10 witness: an order built by `iceberg_order` has no conditions and
`check_conditions` returns `False` on it. -/
theorem C10_empty_conditions_witness :
    check_conditions
      { price_cache := fun _ => none, now := 0,
        position_profit_total := fun _ => 0, drawdown_gt := fun _ _ => false }
      (iceberg_order "IF2401" DirectionType.LONG 100 50 5 none none) = false :=
  C10_empty_conditions.1 _ _ rfl

/-- C2 fails as stated: with every placement succeeding and the window not
elapsing, total volume 95 over a 600-second window is planned as 9 slices
of 10, whose volumes sum to 90, not 95 — the recomputed slice count floors
the product below the total and no slice absorbs the remainder. -/
theorem C2_counterexample :
    (twap_plan 95 600 = (9, 10)) ∧
    twap_slice_volumes 95 (twap_plan 95 600).2 (twap_plan 95 600).1.toNat 0 =
      List.replicate 9 10 ∧
    (twap_slice_volumes 95 (twap_plan 95 600).2 (twap_plan 95 600).1.toNat 0).sum ≠ 95 := by
  have hplan : twap_plan 95 600 = (9, 10) := by
    norm_num [twap_plan, pyTrunc, pyRound]
  refine ⟨hplan, ?_, ?_⟩ <;> rw [hplan] <;>
    norm_num [twap_slice_volumes, List.replicate]

/-- C2 (amended): with every placement succeeding and the window not
elapsing, total volume 100 over a 600-second window yields 10 slices of 10
summing exactly to 100; total volume 95 over the same window yields 9
slices of 10 summing to 90 — the remaining 5 lots are never placed (the
last slice does not absorb the remainder) and the final status is
"partial". -/
theorem C2_twap_slicing :
    (twap_plan 100 600 = (10, 10)) ∧
    twap_slice_volumes 100 10 10 0 = List.replicate 10 10 ∧
    (twap_slice_volumes 100 10 10 0).sum = 100 ∧
    (twap_plan 95 600 = (9, 10)) ∧
    twap_slice_volumes 95 10 9 0 = List.replicate 9 10 ∧
    (twap_slice_volumes 95 10 9 0).sum = 90 ∧
    twap_final_status 95 (twap_slice_volumes 95 10 9 0).sum = "partial" := by
  refine ⟨?_, ?_, ?_, ?_, ?_, ?_, ?_⟩ <;>
    norm_num [twap_plan, twap_slice_volumes, twap_final_status, pyTrunc,
      pyRound, List.replicate]

/-- Every `filled_volume` value reached by the TWAP loop stays at or below
the total: each slice is capped by `min(volume_per_slice, remaining)`. -/
lemma twap_fill_trace_le (total_volume volume_per_slice : ℤ) :
    ∀ (oks : List Bool) (filled : ℤ), filled ≤ total_volume →
      ∀ x ∈ twap_fill_trace total_volume volume_per_slice oks filled,
        x ≤ total_volume := by
  intro oks
  induction oks with
  | nil => intro filled _ x hx; simp [twap_fill_trace] at hx
  | cons ok rest ih =>
    intro filled hf x hx
    rw [twap_fill_trace] at hx
    by_cases hr : total_volume - filled ≤ 0
    · simp [hr] at hx
    · rw [if_neg hr] at hx
      have hmin : min volume_per_slice (total_volume - filled) ≤ total_volume - filled :=
        min_le_right _ _
      have hf2 : (if ok then filled + min volume_per_slice (total_volume - filled)
          else filled) ≤ total_volume := by
        cases ok <;> simp <;> omega
      rcases List.mem_cons.mp hx with h | h
      · exact h ▸ hf2
      · exact ih _ hf2 x h

/-- C1 fails as stated: a VWAP execution over a two-bucket volume profile
with total volume 1 and every placement succeeding drives `filled_volume`
to 2 — each bucket places at least one lot (`max(1, ...)`) and the loop
never consults the remaining volume, so `filled_volume` exceeds
`total_volume`. -/
theorem C1_counterexample :
    vwap_fill_trace 1 1 [1/2, 1/2] [true, true] 0 0 = [1, 2] ∧
    ¬ (∀ x ∈ vwap_fill_trace 1 1 [1/2, 1/2] [true, true] 0 0, x ≤ 1) := by
  have h : vwap_fill_trace 1 1 [1/2, 1/2] [true, true] 0 0 = [1, 2] := by
    norm_num [vwap_fill_trace, pyTrunc]
  refine ⟨h, ?_⟩
  rw [h]
  intro hall
  have := hall 2 (by simp)
  omega

/-- C1 (amended): for TWAP and snapshot executions `filled_volume` never
exceeds `total_volume` at any point during or after execution, whatever the
per-slice placement outcomes; the VWAP loop does not maintain this
invariant (see the counterexample). -/
theorem C1_filled_le_total :
    (∀ (total_volume volume_per_slice filled : ℤ) (oks : List Bool),
      filled ≤ total_volume →
      ∀ x ∈ twap_fill_trace total_volume volume_per_slice oks filled,
        x ≤ total_volume) ∧
    (∀ total_volume : ℤ, 0 ≤ total_volume →
      ∀ ok, snapshot_filled total_volume ok ≤ total_volume) := by
  constructor
  · intro total vps filled oks hf
    exact twap_fill_trace_le total vps oks filled hf
  · intro total ht ok
    cases ok <;> simp [snapshot_filled, ht]

/-- C1 witness: the amended invariant applied to a concrete TWAP execution
(total 100, 10 per slice, one successful placement from a fresh order) and
a concrete snapshot execution. -/
theorem C1_filled_le_total_witness :
    ((0 : ℤ) ≤ 100 ∧
      ∀ x ∈ twap_fill_trace 100 10 [true] 0, x ≤ 100) ∧
    ((0 : ℤ) ≤ 7 ∧ snapshot_filled 7 true ≤ 7) :=
  ⟨⟨by norm_num, C1_filled_le_total.1 100 10 0 [true] (by norm_num)⟩,
   ⟨by norm_num, C1_filled_le_total.2 7 (by norm_num) true⟩⟩

/-- C5: with both daily limits available, the price-limit check rejects a
buy priced at or above `upper_limit - price * buffer_ratio` and rejects a
sell priced at or below `lower_limit + price * buffer_ratio`; with buffer
ratio 0.001 and a positive price, a buy at `upper_limit - 0.0005 * price`
is rejected and a buy at `upper_limit - 0.002 * price` is accepted. -/
theorem C5_price_limit :
    (∀ (buffer_ratio price up down : ℚ) (i : Instrument),
      i.up_limit = some up → i.down_limit = some down →
      (((check_price_limit buffer_ratio i DirectionType.LONG price).passed = false ↔
          up - price * buffer_ratio ≤ price) ∧
       ((check_price_limit buffer_ratio i DirectionType.LONG price).passed = false →
          (check_price_limit buffer_ratio i DirectionType.LONG price).code =
            ERR_PRICE_LIMIT) ∧
       ((check_price_limit buffer_ratio i DirectionType.SHORT price).passed = false ↔
          price ≤ down + price * buffer_ratio) ∧
       ((check_price_limit buffer_ratio i DirectionType.SHORT price).passed = false →
          (check_price_limit buffer_ratio i DirectionType.SHORT price).code =
            ERR_PRICE_LIMIT))) ∧
    (∀ (price down : ℚ) (i : Instrument), 0 < price →
      i.up_limit = some (price + price * (1/2000)) → i.down_limit = some down →
      (check_price_limit (1/1000) i DirectionType.LONG price).passed = false) ∧
    (∀ (price down : ℚ) (i : Instrument), 0 < price →
      i.up_limit = some (price + price * (1/500)) → i.down_limit = some down →
      (check_price_limit (1/1000) i DirectionType.LONG price).passed = true) := by
  refine ⟨?_, ?_, ?_⟩
  · intro br price up down i hu hd
    simp only [check_price_limit, hu, hd]
    refine ⟨?_, ?_, ?_, ?_⟩
    · by_cases h : up - price * br ≤ price <;> simp [h]
    · by_cases h : up - price * br ≤ price <;> simp [h]
    · by_cases h : price ≤ down + price * br <;> simp [h]
    · by_cases h : price ≤ down + price * br <;> simp [h]
  · intro price down i hp hu hd
    simp only [check_price_limit, hu, hd]
    split
    · rfl
    · rename_i hcond
      exfalso; apply hcond; nlinarith
  · intro price down i hp hu hd
    simp only [check_price_limit, hu, hd]
    split
    · rename_i hcond
      exfalso; nlinarith
    · rfl

/-- C5 witness: with limits 105/95 and buffer 0.001, a buy at 100 against
an upper limit of `100 + 0.0005 * 100 = 100.05` is rejected and a buy at
100 against an upper limit of `100 + 0.002 * 100 = 100.2` is accepted. -/
theorem C5_price_limit_witness :
    (check_price_limit (1/1000)
      { code := "IF2401", up_limit := some (100 + 100 * (1/2000)),
        down_limit := some 95 }
      DirectionType.LONG 100).passed = false ∧
    (check_price_limit (1/1000)
      { code := "IF2401", up_limit := some (100 + 100 * (1/500)),
        down_limit := some 95 }
      DirectionType.LONG 100).passed = true :=
  ⟨C5_price_limit.2.1 100 95 _ (by norm_num) rfl rfl,
   C5_price_limit.2.2 100 95 _ (by norm_num) rfl rfl⟩

/-- One step of the long trailing-stop walk: the watermark becomes
`max highest p` and the check triggers exactly when
`p ≤ max highest p - distance`. -/
lemma trail_steps_long_cons (distance highest p : ℚ) (ps : List ℚ) :
    trail_steps_long distance highest (p :: ps) =
      (decide (p ≤ max highest p - distance), max highest p) ::
        trail_steps_long distance (max highest p) ps := by
  by_cases h : highest < p
  · simp [trail_steps_long, check_stop_condition, h, max_eq_right h.le]
  · simp [trail_steps_long, check_stop_condition, h, max_eq_left (not_lt.mp h)]

/-- C6: for a long-position trailing stop with an absolute distance, each
check's running high is the maximum of the entry price and every price
observed so far (updated only when a price improves it), the check triggers
exactly when the current price is at or below running-high minus distance,
and the sequence 100, 110, 108, 104 with entry 100 and distance 5 first
triggers at 104 (running high 110), not at 108. -/
theorem C6_trailing_stop :
    (∀ (distance entry p : ℚ) (pre rest : List ℚ),
      (trail_steps_long distance entry (pre ++ p :: rest)).get? pre.length =
        some (decide (p ≤ List.foldl max entry (pre ++ [p]) - distance),
              List.foldl max entry (pre ++ [p]))) ∧
    trail_steps_long 5 100 [100, 110, 108, 104] =
      [(false, 100), (false, 110), (false, 110), (true, 110)] := by
  constructor
  · intro distance entry p pre rest
    induction pre generalizing entry with
    | nil => simp [trail_steps_long_cons]
    | cons q pre ih =>
      rw [List.cons_append, trail_steps_long_cons]
      simpa using ih (max entry q)
  · have h1 : max (100:ℚ) 100 = 100 := by norm_num
    have h2 : max (100:ℚ) 110 = 110 := by norm_num
    have h3 : max (110:ℚ) 108 = 110 := by norm_num
    have h4 : max (110:ℚ) 104 = 110 := by norm_num
    rw [trail_steps_long_cons, h1, trail_steps_long_cons, h2,
      trail_steps_long_cons, h3, trail_steps_long_cons, h4]
    norm_num [trail_steps_long]

/-- C6 witness: the running-high characterization applied to the concrete
sequence at index 3 — the high over 100, 110, 108, 104 with entry 100 is
110 and 104 triggers against 110 - 5. -/
theorem C6_trailing_stop_witness :
    (trail_steps_long 5 100 ([100, 110, 108] ++ 104 :: [])).get? 3 =
      some (decide ((104:ℚ) ≤ List.foldl max 100 ([100, 110, 108] ++ [104]) - 5),
            List.foldl max 100 ([100, 110, 108] ++ [104])) :=
  C6_trailing_stop.1 5 100 104 [100, 110, 108] []

/-- C7 fails as stated: registering a percentage stop (entry 100,
percentage 0.02) stores no threshold at all (`stop_price` stays `None`),
and a later check recomputes the threshold from the avg-open-price the
position carries at check time — with the position's `avg_open_price`
changed to 200, price 150 triggers (150 ≤ 200 × 0.98) even though the
registration-time threshold 100 × 0.98 = 98 would not have. -/
theorem C7_counterexample :
    register_stop_loss
        (fun pid => if pid = 1 then
          some { id := 1, code := "IF2401", direction := DirectionType.LONG,
                 avg_open_price := 100, position := 1 } else none)
        [] 1 StopType.PERCENTAGE none (some (2/100)) none none =
      (true,
        [(1, { position_id := 1, stop_type := StopType.PERCENTAGE,
               stop_price := none, stop_percentage := some (2/100),
               direction := some DirectionType.LONG })]) ∧
    (check_stop_condition
        { id := 1, code := "IF2401", direction := DirectionType.LONG,
          avg_open_price := 200, position := 1 }
        { position_id := 1, stop_type := StopType.PERCENTAGE,
          stop_price := none, stop_percentage := some (2/100),
          direction := some DirectionType.LONG }
        150).1 = (true, some 196) ∧
    ¬ ((150 : ℚ) ≤ 100 * (1 - 2/100)) := by
  refine ⟨?_, ?_, ?_⟩
  · norm_num [register_stop_loss, dictInsert]
    decide
  · simp only [check_stop_condition]
    norm_num
    exact ⟨by rw [if_neg (by decide)]; norm_num, by decide⟩
  · norm_num

/-- C7 (amended): for a percentage-type StopOrder the trigger threshold
equals `avg_open_price × (1 - pct)` for a long position and
`avg_open_price × (1 + pct)` for a short position, but it is recomputed at
every check from the position row passed to the check; registration stores
only the percentage (threshold field left empty), never a threshold. -/
theorem C7_percentage_threshold :
    (∀ (position : Position) (so : StopOrder) (current pct : ℚ),
      so.stop_type = StopType.PERCENTAGE → so.stop_percentage = some pct →
      check_stop_condition position so current =
        ((if position.direction = DirectionType.LONG
            then decide (current ≤ position.avg_open_price * (1 - pct))
            else decide (position.avg_open_price * (1 + pct) ≤ current),
          some (if position.direction = DirectionType.SHORT
                then position.avg_open_price * (1 + pct)
                else position.avg_open_price * (1 - pct))), so)) ∧
    (∀ (positions : ℤ → Option Position) (stop_orders : List (ℤ × StopOrder))
       (position_id : ℤ) (position : Position) (pct : ℚ),
      positions position_id = some position →
      register_stop_loss positions stop_orders position_id
          StopType.PERCENTAGE none (some pct) none none =
        (true, dictInsert position_id
          { position_id := position_id, stop_type := StopType.PERCENTAGE,
            stop_price := none, stop_percentage := some pct,
            direction := some position.direction }
          stop_orders)) := by
  constructor
  · intro position so current pct hty hpct
    cases hdir : position.direction <;>
      simp [check_stop_condition, hty, hpct, hdir]
  · intro positions stop_orders pid position pct hpos
    simp [register_stop_loss, hpos]

/-- C7 witness: the recomputed-threshold formula applied to a long position
with avg-open-price 200, percentage 0.02 and price 150, and the
registration equation at a concrete store. -/
theorem C7_percentage_threshold_witness :
    check_stop_condition
        { id := 1, code := "IF2401", direction := DirectionType.LONG,
          avg_open_price := 200, position := 1 }
        { position_id := 1, stop_type := StopType.PERCENTAGE,
          stop_price := none, stop_percentage := some (2/100),
          direction := some DirectionType.LONG }
        150 =
      ((decide ((150:ℚ) ≤ 200 * (1 - 2/100)), some (200 * (1 - 2/100))),
        { position_id := 1, stop_type := StopType.PERCENTAGE,
          stop_price := none, stop_percentage := some (2/100),
          direction := some DirectionType.LONG }) ∧
    register_stop_loss
        (fun pid => if pid = 1 then
          some { id := 1, code := "IF2401", direction := DirectionType.LONG,
                 avg_open_price := 100, position := 1 } else none)
        [] 1 StopType.PERCENTAGE none (some (2/100)) none none =
      (true, dictInsert 1
        { position_id := 1, stop_type := StopType.PERCENTAGE,
          stop_price := none, stop_percentage := some (2/100),
          direction := some DirectionType.LONG } []) := by
  constructor
  · exact C7_percentage_threshold.1
      { id := 1, code := "IF2401", direction := DirectionType.LONG,
        avg_open_price := 200, position := 1 }
      { position_id := 1, stop_type := StopType.PERCENTAGE,
        stop_price := none, stop_percentage := some (2/100),
        direction := some DirectionType.LONG }
      150 (2/100) rfl rfl
  · exact C7_percentage_threshold.2 _ []  1
      { id := 1, code := "IF2401", direction := DirectionType.LONG,
        avg_open_price := 100, position := 1 }
      (2/100) (by norm_num)

/-- Every trigger record emitted by `check_and_trigger` carries the
dictionary key of the entry that produced it. -/
lemma check_and_trigger_report_keys (positions : ℤ → Option Position)
    (prices : String → Option ℚ) :
    ∀ (orders : List (ℤ × StopOrder)) (t : TriggerInfo),
      t ∈ (check_and_trigger positions prices orders).1 →
      t.position_id ∈ orders.map Prod.fst := by
  intro orders
  induction orders with
  | nil => intro t ht; simp [check_and_trigger] at ht
  | cons hd rest ih =>
    obtain ⟨k, v⟩ := hd
    intro t ht
    simp only [check_and_trigger] at ht
    by_cases hv : v.triggered
    · simp only [hv, if_pos] at ht
      exact List.mem_cons_of_mem _ (ih t ht)
    · simp only [Bool.not_eq_true] at hv
      simp only [hv, Bool.false_eq_true, if_false] at ht
      rcases hpos : positions k with _ | pos <;> simp only [hpos] at ht
      · exact List.mem_cons_of_mem _ (ih t ht)
      · by_cases hz : pos.position = 0
        · simp only [hz, if_true, if_pos] at ht
          exact List.mem_cons_of_mem _ (ih t ht)
        · rw [if_neg hz] at ht
          rcases hpr : prices pos.code with _ | cp <;> simp only [hpr] at ht
          · exact List.mem_cons_of_mem _ (ih t ht)
          · by_cases hc : (check_stop_condition pos v cp).1.1 = true
            · simp only [hc, if_true, if_pos] at ht
              rcases List.mem_cons.mp ht with heq | hmem
              · subst heq; simp
              · exact List.mem_cons_of_mem _ (ih t hmem)
            · simp only [Bool.not_eq_true] at hc
              simp only [hc, Bool.false_eq_true, if_false] at ht
              exact List.mem_cons_of_mem _ (ih t ht)

/-- An already-triggered StopOrder survives a `check_and_trigger` sweep
unchanged: the sweep skips it without removing it. -/
lemma check_and_trigger_keeps_triggered (positions : ℤ → Option Position)
    (prices : String → Option ℚ) :
    ∀ (orders : List (ℤ × StopOrder)) (pid : ℤ) (so : StopOrder),
      (pid, so) ∈ orders → so.triggered = true →
      (pid, so) ∈ (check_and_trigger positions prices orders).2 := by
  intro orders
  induction orders with
  | nil => intro pid so hmem _; simp at hmem
  | cons hd rest ih =>
    obtain ⟨k, v⟩ := hd
    intro pid so hmem htrig
    rcases List.mem_cons.mp hmem with heq | hmem'
    · obtain ⟨hk, hv⟩ := Prod.mk.injEq .. ▸ heq
      subst hk; subst hv
      simp only [check_and_trigger, htrig, if_true, if_pos]
      exact List.mem_cons_self _ _
    · have hrec := ih pid so hmem' htrig
      simp only [check_and_trigger]
      by_cases hv : v.triggered
      · simp only [hv, if_true, if_pos]
        exact List.mem_cons_of_mem _ hrec
      · simp only [Bool.not_eq_true] at hv
        simp only [hv, Bool.false_eq_true, if_false]
        rcases hpos : positions k with _ | pos <;> simp only [hpos]
        · exact hrec
        · by_cases hz : pos.position = 0
          · simp only [hz, if_true, if_pos]
            exact hrec
          · rw [if_neg hz]
            rcases hpr : prices pos.code with _ | cp <;> simp only [hpr]
            · exact List.mem_cons_of_mem _ hrec
            · by_cases hc : (check_stop_condition pos v cp).1.1 = true
              · simp only [hc, if_true, if_pos]
                exact List.mem_cons_of_mem _ hrec
              · simp only [Bool.not_eq_true] at hc
                simp only [hc, Bool.false_eq_true, if_false]
                exact List.mem_cons_of_mem _ hrec

/-- With distinct dictionary keys, an already-triggered StopOrder produces
no trigger record on a sweep: triggering is reported at most once. -/
lemma check_and_trigger_no_rereport (positions : ℤ → Option Position)
    (prices : String → Option ℚ) :
    ∀ (orders : List (ℤ × StopOrder)) (pid : ℤ) (so : StopOrder),
      (orders.map Prod.fst).Nodup → (pid, so) ∈ orders → so.triggered = true →
      ∀ t ∈ (check_and_trigger positions prices orders).1, t.position_id ≠ pid := by
  intro orders
  induction orders with
  | nil => intro pid so _ hmem _; simp at hmem
  | cons hd rest ih =>
    obtain ⟨k, v⟩ := hd
    intro pid so hnd hmem htrig t ht
    have hnd' := hnd
    rw [List.map_cons, List.nodup_cons] at hnd'
    obtain ⟨hknot, hndrest⟩ := hnd'
    rcases List.mem_cons.mp hmem with heq | hmem'
    · obtain ⟨hk, hv⟩ := Prod.mk.injEq .. ▸ heq
      subst hk; subst hv
      simp only [check_and_trigger, htrig, if_true, if_pos] at ht
      have := check_and_trigger_report_keys positions prices rest t ht
      intro hcontra
      rw [hcontra] at this
      exact hknot this
    · have hpidrest : pid ∈ rest.map Prod.fst :=
        List.mem_map.mpr ⟨(pid, so), hmem', rfl⟩
      have hkpid : k ≠ pid := fun h => hknot (h ▸ hpidrest)
      simp only [check_and_trigger] at ht
      by_cases hv : v.triggered
      · simp only [hv, if_true, if_pos] at ht
        exact ih pid so hndrest hmem' htrig t ht
      · simp only [Bool.not_eq_true] at hv
        simp only [hv, Bool.false_eq_true, if_false] at ht
        rcases hpos : positions k with _ | pos <;> simp only [hpos] at ht
        · exact ih pid so hndrest hmem' htrig t ht
        · by_cases hz : pos.position = 0
          · simp only [hz, if_true, if_pos] at ht
            exact ih pid so hndrest hmem' htrig t ht
          · rw [if_neg hz] at ht
            rcases hpr : prices pos.code with _ | cp <;> simp only [hpr] at ht
            · exact ih pid so hndrest hmem' htrig t ht
            · by_cases hc : (check_stop_condition pos v cp).1.1 = true
              · simp only [hc, if_true, if_pos] at ht
                rcases List.mem_cons.mp ht with heq2 | hmem2
                · subst heq2; exact hkpid
                · exact ih pid so hndrest hmem' htrig t hmem2
              · simp only [Bool.not_eq_true] at hc
                simp only [hc, Bool.false_eq_true, if_false] at ht
                exact ih pid so hndrest hmem' htrig t ht

/-- C8 fails as stated for the StopEngine: a StopOrder already marked
triggered, whose position is still open and whose price is available, is
still in `stop_orders` after the next `check_and_trigger` sweep — the sweep
skips triggered orders but never removes them (removal happens only when
the position itself has closed). -/
theorem C8_counterexample :
    check_and_trigger
        (fun pid => if pid = 1 then
          some { id := 1, code := "IF2401", direction := DirectionType.LONG,
                 avg_open_price := 100, position := 1 } else none)
        (fun code => if code = "IF2401" then some 100 else none)
        [(1, { position_id := 1, stop_type := StopType.FIXED_PRICE,
               stop_price := some 95, direction := some DirectionType.LONG,
               triggered := true })] =
      ([], [(1, { position_id := 1, stop_type := StopType.FIXED_PRICE,
                  stop_price := some 95, direction := some DirectionType.LONG,
                  triggered := true })]) := by
  simp [check_and_trigger]

/-- C8 (amended): a triggered ConditionalOrder is removed from the engine's
orders map by the next cleanup pass; a triggered StopOrder is NOT removed
by the next `check_and_trigger` sweep — it stays in `stop_orders` until its
position closes — but re-checking it is a no-op: it is never reported
again, so each StopOrder is reported at most once. -/
theorem C8_triggered_handling :
    (∀ (positions : ℤ → Option Position) (prices : String → Option ℚ)
       (orders : List (ℤ × StopOrder)) (pid : ℤ) (so : StopOrder),
      (pid, so) ∈ orders → so.triggered = true →
      (pid, so) ∈ (check_and_trigger positions prices orders).2) ∧
    (∀ (positions : ℤ → Option Position) (prices : String → Option ℚ)
       (orders : List (ℤ × StopOrder)) (pid : ℤ) (so : StopOrder),
      (orders.map Prod.fst).Nodup → (pid, so) ∈ orders → so.triggered = true →
      ∀ t ∈ (check_and_trigger positions prices orders).1, t.position_id ≠ pid) ∧
    (∀ (now : ℚ) (orders : List (String × ConditionalOrder)),
      ∀ e ∈ cleanup_orders now orders, e.2.is_triggered = false) := by
  refine ⟨check_and_trigger_keeps_triggered, check_and_trigger_no_rereport, ?_⟩
  intro now orders e he
  have h := (List.mem_filter.mp he).2
  simp only [Bool.and_eq_true, Bool.not_eq_true'] at h
  exact h.1

/-- C8 witness: the amended behavior at a concrete engine state — the
triggered stop order of the counterexample stays registered and produces no
report, and a concrete cleanup pass leaves only untriggered conditional
orders. -/
theorem C8_triggered_handling_witness :
    ((1, { position_id := 1, stop_type := StopType.FIXED_PRICE,
           stop_price := some 95, direction := some DirectionType.LONG,
           triggered := true : StopOrder }) ∈
      (check_and_trigger
        (fun pid => if pid = 1 then
          some { id := 1, code := "IF2401", direction := DirectionType.LONG,
                 avg_open_price := 100, position := 1 } else none)
        (fun code => if code = "IF2401" then some 100 else none)
        [(1, { position_id := 1, stop_type := StopType.FIXED_PRICE,
               stop_price := some 95, direction := some DirectionType.LONG,
               triggered := true })]).2) ∧
    (∀ e ∈ cleanup_orders 0
        [("a", { order_id := "a", is_triggered := true : ConditionalOrder }),
         ("b", { order_id := "b", is_triggered := false : ConditionalOrder })],
      e.2.is_triggered = false) :=
  ⟨C8_triggered_handling.1 _ _ _ 1 _ (List.mem_singleton.mpr rfl) rfl,
   C8_triggered_handling.2.2 0 _⟩

/-- A rate-limit call under capacity passes and appends its timestamp after
pruning. -/
lemma check_rate_limit_pass (m : ℕ) (now : ℚ) (s : RiskState) (code : String)
    (h : ¬ m ≤ (cleanup_old_orders now s.order_count code).length) :
    check_rate_limit m now s code =
      ({ passed := true },
       { order_count := fun c =>
           if c = code then cleanup_old_orders now s.order_count c ++ [now]
           else cleanup_old_orders now s.order_count c }) := by
  simp [check_rate_limit, h]

/-- A rate-limit call at or over capacity rejects with the rate-limit error
code and only prunes. -/
lemma check_rate_limit_reject (m : ℕ) (now : ℚ) (s : RiskState) (code : String)
    (h : m ≤ (cleanup_old_orders now s.order_count code).length) :
    check_rate_limit m now s code =
      ({ passed := false,
         message := "下单频率过高: 最近一分钟内已下单 "
           ++ toString (cleanup_old_orders now s.order_count code).length ++ " 次",
         code := ERR_RATE_LIMIT },
       { order_count := cleanup_old_orders now s.order_count }) := by
  simp [check_rate_limit, h]

/-- Successive rate-limit calls all within one 60-second span of each other
and of the recorded history, with capacity to spare, all pass, and the
instrument's record afterwards is the history followed by the new
timestamps in order. -/
lemma run_rate_all_pass (m : ℕ) (code : String) :
    ∀ (ts : List ℚ) (s : RiskState) (acc : List ℚ),
      s.order_count code = acc →
      (∀ a ∈ acc, ∀ t ∈ ts, t - a < 60) →
      (∀ a ∈ ts, ∀ b ∈ ts, b - a < 60) →
      acc.length + ts.length ≤ m →
      (run_rate_calls m code s ts).1 = List.replicate ts.length { passed := true } ∧
      (run_rate_calls m code s ts).2.order_count code = acc ++ ts := by
  intro ts
  induction ts with
  | nil =>
    intro s acc hs _ _ _
    simpa [run_rate_calls] using hs
  | cons t ts ih =>
    intro s acc hs hfresh hspan hlen
    have hoc : cleanup_old_orders t s.order_count code = acc := by
      rw [cleanup_old_orders, hs]
      apply List.filter_eq_self.mpr
      intro a ha
      have h1 := hfresh a ha t (List.mem_cons_self _ _)
      simp only [decide_eq_true_eq]
      linarith
    have hcnt : ¬ m ≤ (cleanup_old_orders t s.order_count code).length := by
      rw [hoc]
      simp only [List.length_cons] at hlen
      omega
    have hstep := check_rate_limit_pass m t s code hcnt
    have hrec := ih
      { order_count := fun c =>
          if c = code then cleanup_old_orders t s.order_count c ++ [t]
          else cleanup_old_orders t s.order_count c }
      (acc ++ [t])
      (by simp [hoc])
      (by
        intro a ha u hu
        rcases List.mem_append.mp ha with ha' | ha'
        · exact hfresh a ha' u (List.mem_cons_of_mem _ hu)
        · rw [List.mem_singleton.mp ha']
          exact hspan t (List.mem_cons_self _ _) u (List.mem_cons_of_mem _ hu))
      (by
        intro a ha b hb
        exact hspan a (List.mem_cons_of_mem _ ha) b (List.mem_cons_of_mem _ hb))
      (by
        have hal : (acc ++ [t]).length = acc.length + 1 := by simp
        rw [hal]
        simp only [List.length_cons] at hlen
        omega)
    simp only [run_rate_calls, hstep, List.length_cons, List.replicate_succ]
    refine ⟨?_, ?_⟩
    · rw [hrec.1]
    · rw [hrec.2, List.append_assoc, List.singleton_append]

/-- C4: from an empty record, N orders for one instrument within a
60-second span all pass when N is the configured maximum (in particular the
Nth), an (N+1)th order still inside every recorded timestamp's window is
rejected with the rate-limit error code, and once the oldest recorded
timestamp is at least 60 seconds old a new order is accepted again; the
window is pruned lazily on every call so no timestamp 60 seconds or older
survives a check, and a rejected call records no timestamp. -/
theorem C4_rate_limit :
    (∀ (m : ℕ) (code : String) (ts : List ℚ) (s₀ : RiskState) (t_next : ℚ),
      s₀.order_count code = [] →
      ts.Pairwise (· ≤ ·) →
      (∀ a ∈ ts, ∀ b ∈ ts, b - a < 60) →
      ts.length = m →
      (∀ u ∈ ts, t_next - u < 60) →
      ((run_rate_calls m code s₀ ts).1 = List.replicate m { passed := true } ∧
       (run_rate_calls m code s₀ ts).2.order_count code = ts ∧
       (check_rate_limit m t_next (run_rate_calls m code s₀ ts).2 code).1.passed = false ∧
       (check_rate_limit m t_next (run_rate_calls m code s₀ ts).2 code).1.code =
         ERR_RATE_LIMIT ∧
       (∀ (t1 : ℚ) (trest : List ℚ) (t_again : ℚ), ts = t1 :: trest →
         t1 ≤ t_again - 60 →
         (check_rate_limit m t_again (run_rate_calls m code s₀ ts).2 code).1.passed =
           true))) ∧
    (∀ (m : ℕ) (now : ℚ) (s : RiskState) (code c : String),
      ∀ x ∈ (check_rate_limit m now s code).2.order_count c, now - 60 < x) ∧
    (∀ (m : ℕ) (now : ℚ) (s : RiskState) (code : String),
      (check_rate_limit m now s code).1.passed = false →
      (check_rate_limit m now s code).2.order_count =
        cleanup_old_orders now s.order_count) := by
  refine ⟨?_, ?_, ?_⟩
  · intro m code ts s₀ t_next hs₀ _hsorted hspan hlen hwin
    obtain ⟨hres, hoc⟩ := run_rate_all_pass m code ts s₀ [] hs₀
      (by intro a ha; simp at ha) hspan (by simpa using hlen.le)
    rw [hlen] at hres
    have hkeep : cleanup_old_orders t_next
        (run_rate_calls m code s₀ ts).2.order_count code = ts := by
      rw [cleanup_old_orders, hoc]
      apply List.filter_eq_self.mpr
      intro u hu
      have := hwin u hu
      simp only [decide_eq_true_eq]
      linarith
    have hfull : m ≤ (cleanup_old_orders t_next
        (run_rate_calls m code s₀ ts).2.order_count code).length := by
      rw [hkeep, hlen]
    have hrej := check_rate_limit_reject m t_next (run_rate_calls m code s₀ ts).2
      code hfull
    refine ⟨hres, hoc, by rw [hrej], by rw [hrej], ?_⟩
    intro t1 trest t_again hts hold
    have hdrop : cleanup_old_orders t_again
        (run_rate_calls m code s₀ ts).2.order_count code =
        trest.filter (fun x => t_again - 60 < x) := by
      rw [cleanup_old_orders, hoc, hts, List.nil_append, List.filter_cons]
      have : ¬ (t_again - 60 < t1) := by linarith
      simp [this]
    have hm : m = trest.length + 1 := by
      rw [← hlen, hts, List.length_cons]
    have hroom : ¬ m ≤ (cleanup_old_orders t_again
        (run_rate_calls m code s₀ ts).2.order_count code).length := by
      rw [hdrop, hm]
      have := List.length_filter_le (fun x => decide (t_again - 60 < x)) trest
      omega
    rw [check_rate_limit_pass m t_again _ code hroom]
  · intro m now s code c x hx
    by_cases h : m ≤ (cleanup_old_orders now s.order_count code).length
    · rw [check_rate_limit_reject m now s code h] at hx
      simp only [cleanup_old_orders, List.mem_filter, decide_eq_true_eq] at hx
      exact hx.2
    · rw [check_rate_limit_pass m now s code h] at hx
      simp only at hx
      by_cases hc : c = code
      · rw [if_pos hc] at hx
        rcases List.mem_append.mp hx with hx' | hx'
        · simp only [cleanup_old_orders, List.mem_filter, decide_eq_true_eq] at hx'
          exact hx'.2
        · rw [List.mem_singleton.mp hx']
          linarith
      · rw [if_neg hc] at hx
        simp only [cleanup_old_orders, List.mem_filter, decide_eq_true_eq] at hx
        exact hx.2
  · intro m now s code hfail
    by_cases h : m ≤ (cleanup_old_orders now s.order_count code).length
    · rw [check_rate_limit_reject m now s code h]
    · rw [check_rate_limit_pass m now s code h] at hfail
      simp at hfail

/-- C4 witness: with a maximum of 2 orders per minute, orders at seconds 0
and 10 both pass, a third at second 20 is rejected with the rate-limit
code, and an order at second 70 (the oldest record now 70 seconds old) is
accepted again. -/
theorem C4_rate_limit_witness :
    (run_rate_calls 2 "a" { order_count := fun _ => [] } [0, 10]).1 =
      List.replicate 2 { passed := true } ∧
    (check_rate_limit 2 20
      (run_rate_calls 2 "a" { order_count := fun _ => [] } [0, 10]).2 "a").1.passed =
      false ∧
    (check_rate_limit 2 20
      (run_rate_calls 2 "a" { order_count := fun _ => [] } [0, 10]).2 "a").1.code =
      ERR_RATE_LIMIT ∧
    (check_rate_limit 2 70
      (run_rate_calls 2 "a" { order_count := fun _ => [] } [0, 10]).2 "a").1.passed =
      true := by
  have h := C4_rate_limit.1 2 "a" [0, 10] { order_count := fun _ => [] } 20
    rfl
    (by norm_num [List.pairwise_cons])
    (by intro a ha b hb; fin_cases ha <;> fin_cases hb <;> norm_num)
    rfl
    (by intro u hu; fin_cases hu <;> norm_num)
  exact ⟨h.1, h.2.2.1, h.2.2.2.1, h.2.2.2.2 0 [10] 70 rfl (by norm_num)⟩

/-- C3: `check_order_before_submit` is an ordered, short-circuiting
pipeline: whenever a check fails, the call returns that check's result
(its specific error code and message) with the engine state untouched — in
particular the rate-limit timestamp list is not extended when any earlier
check fails — steps 5 and 6 run only for opens, and when every check
passes the rate-limit step records the order and a success result is
returned. -/
theorem C3_pipeline_short_circuit :
    (∀ (cfg : RiskConfig) (now : LocalNow) (broker_account : Option Account)
       (current_position : ℤ) (s : RiskState) (instrument : Option Instrument)
       (direction : DirectionType) (offset : OffsetFlag) (price : ℚ)
       (volume : ℤ) (account : Option Account)
       (out : RiskCheckResult × RiskState),
      out = check_order_before_submit cfg now broker_account current_position s
        instrument direction offset price volume account →
      ((accountResolve account broker_account = none →
        out = ({ passed := false, message := "未找到账户信息",
                 code := ERR_MARGIN_INSUFFICIENT }, s)) ∧
       (∀ acct, accountResolve account broker_account = some acct →
        (((check_instrument_status instrument).passed = false →
           out = (check_instrument_status instrument, s)) ∧
         (∀ i, instrument = some i →
           (check_instrument_status (some i)).passed = true →
           (((check_trading_time now i).passed = false →
              out = (check_trading_time now i, s)) ∧
            ((check_trading_time now i).passed = true →
             (((check_price_limit cfg.price_limit_buffer i direction price).passed
                 = false →
                out = (check_price_limit cfg.price_limit_buffer i direction price, s)) ∧
              ((check_price_limit cfg.price_limit_buffer i direction price).passed
                 = true →
               (((check_order_size i volume).passed = false →
                  out = (check_order_size i volume, s)) ∧
                ((check_order_size i volume).passed = true →
                 ((offset = OffsetFlag.Open →
                   (((check_position_limit current_position acct i volume).passed
                       = false →
                      out = (check_position_limit current_position acct i volume, s)) ∧
                    ((check_position_limit current_position acct i volume).passed
                       = true →
                     (((check_margin_sufficient cfg acct i volume).passed = false →
                        out = (check_margin_sufficient cfg acct i volume, s)) ∧
                      ((check_margin_sufficient cfg acct i volume).passed = true →
                        out = rate_limit_and_finish cfg now s i.code))))) ∧
                  (offset ≠ OffsetFlag.Open →
                    out = rate_limit_and_finish cfg now s i.code))))))))))))) ∧
    (∀ (cfg : RiskConfig) (now : LocalNow) (s : RiskState) (code : String),
      ((check_rate_limit cfg.max_order_per_minute now.t s code).1.passed = false →
        rate_limit_and_finish cfg now s code =
          check_rate_limit cfg.max_order_per_minute now.t s code) ∧
      ((check_rate_limit cfg.max_order_per_minute now.t s code).1.passed = true →
        rate_limit_and_finish cfg now s code =
          ({ passed := true, message := "风控检查通过" },
           (check_rate_limit cfg.max_order_per_minute now.t s code).2))) := by
  constructor
  · intro cfg now ba cp s inst d off price vol acc out hout
    subst hout
    constructor
    · intro hnone
      simp only [check_order_before_submit, hnone]
    · intro acct hacct
      constructor
      · intro h1
        simp only [check_order_before_submit, hacct]
        rw [if_pos h1]
      · intro i hi h1
        subst hi
        have h1' : ¬ (check_instrument_status (some i)).passed = false := by
          simp [h1]
        constructor
        · intro h2
          simp only [check_order_before_submit, hacct]
          rw [if_neg h1', if_pos h2]
        · intro h2
          have h2' : ¬ (check_trading_time now i).passed = false := by simp [h2]
          constructor
          · intro h3
            simp only [check_order_before_submit, hacct]
            rw [if_neg h1', if_neg h2', if_pos h3]
          · intro h3
            have h3' : ¬ (check_price_limit cfg.price_limit_buffer i d price).passed
                = false := by simp [h3]
            constructor
            · intro h4
              simp only [check_order_before_submit, hacct]
              rw [if_neg h1', if_neg h2', if_neg h3', if_pos h4]
            · intro h4
              have h4' : ¬ (check_order_size i vol).passed = false := by simp [h4]
              constructor
              · intro hoff
                constructor
                · intro h5
                  simp only [check_order_before_submit, hacct]
                  rw [if_neg h1', if_neg h2', if_neg h3', if_neg h4', if_pos hoff,
                    if_pos h5]
                · intro h5
                  have h5' : ¬ (check_position_limit cp acct i vol).passed = false := by
                    simp [h5]
                  constructor
                  · intro h6
                    simp only [check_order_before_submit, hacct]
                    rw [if_neg h1', if_neg h2', if_neg h3', if_neg h4', if_pos hoff,
                      if_neg h5', if_pos h6]
                  · intro h6
                    have h6' : ¬ (check_margin_sufficient cfg acct i vol).passed
                        = false := by simp [h6]
                    simp only [check_order_before_submit, hacct]
                    rw [if_neg h1', if_neg h2', if_neg h3', if_neg h4', if_pos hoff,
                      if_neg h5', if_neg h6']
              · intro hoff
                simp only [check_order_before_submit, hacct]
                rw [if_neg h1', if_neg h2', if_neg h3', if_neg h4', if_neg hoff]
  · intro cfg now s code
    constructor
    · intro hfail
      simp only [rate_limit_and_finish, hfail, if_true, if_pos]
    · intro hpass
      have hpass' : ¬ (check_rate_limit cfg.max_order_per_minute now.t s code).1.passed
          = false := by simp [hpass]
      simp only [rate_limit_and_finish]
      rw [if_neg hpass']

/-- C3 witness: a non-trading instrument fails the first check and the call
returns exactly that check's result with the rate-limit state untouched. -/
theorem C3_pipeline_short_circuit_witness :
    check_order_before_submit {} { weekday := 0, hour := 9, t := 0 }
        (some { available := 100000, balance := 100000 }) 0
        { order_count := fun _ => [] }
        (some { code := "IF2401", is_trading := false })
        DirectionType.LONG OffsetFlag.Open 100 1 none =
      (check_instrument_status (some { code := "IF2401", is_trading := false }),
       { order_count := fun _ => [] }) :=
  ((C3_pipeline_short_circuit.1 {} { weekday := 0, hour := 9, t := 0 }
      (some { available := 100000, balance := 100000 }) 0
      { order_count := fun _ => [] }
      (some { code := "IF2401", is_trading := false })
      DirectionType.LONG OffsetFlag.Open 100 1 none _ rfl).2
    { available := 100000, balance := 100000 } rfl).1 rfl
